import Mathlib

/-!
Verification development for the stock-analyzer repository.

The repository is a Streamlit equity-research tool built from five thin
library modules (`data_fetcher.py`, `chart_builder.py`, `file_processor.py`,
`llm_client.py`, `report_generator.py`).  Each module wraps external services
(yfinance, the Anthropic messages API, pandas/PyPDF2 parsers), so the
embedding models every external call as an explicit oracle argument of type
`Except` (the `.error` case standing for a raised exception), and models each
Python object as a structure threaded through its operations.  Machine
floats returned by the data APIs are modelled as exact rationals with an
explicit NaN marker (`PyFloat.nan`), since no claim depends on rounding.
-/

namespace StockAnalyzer

/-- One row of the OHLCV price DataFrame returned by yfinance
(`Date, Open, High, Low, Close, Volume`). -/
structure PriceRow where
  date : String
  openPrice : Rat
  high : Rat
  low : Rat
  close : Rat
  volume : Rat
deriving DecidableEq, Repr

/-- A Python value as handled by the repository: `None`, strings, numbers,
float NaN, booleans, and pandas DataFrames of price rows.  Nested dicts are
modelled by dedicated structure fields where they occur. -/
inductive PyVal where
  | pynone
  | str (s : String)
  | num (q : Rat)
  | nan
  | boolean (b : Bool)
  | df (rows : List PriceRow)
deriving DecidableEq, Repr

/-- A Python dict from string keys to values, as an association list. -/
abbrev PyDict := List (String × PyVal)

/-- Python `d.get(k)`: `None` when the key is missing. -/
def pyGet (d : PyDict) (k : String) : PyVal :=
  (d.lookup k).getD PyVal.pynone

/-- Python `str.upper()` (ASCII model; tickers are ASCII). -/
def pyUpper (s : String) : String := String.mk (s.toList.map Char.toUpper)

/-- Python `str.strip()`: drop whitespace from both ends. -/
def pyStrip (s : String) : String :=
  String.mk
    (((s.toList.dropWhile Char.isWhitespace).reverse.dropWhile
      Char.isWhitespace).reverse)

/-- `pd.isna` on our value model: true exactly for `None` and NaN. -/
def pdIsNa : PyVal → Bool
  | .nan => true
  | .pynone => true
  | _ => false

/-- Digits of a decimal literal to a natural number; `none` on a non-digit.
An empty list of digits yields `some 0` (callers guard emptiness). -/
def digitsToNat (cs : List Char) : Option Nat :=
  cs.foldl
    (fun acc c =>
      match acc with
      | none => none
      | some n => if c.isDigit then some (n * 10 + (c.toNat - 48)) else none)
    (some 0)

/-- Python floats: either NaN or an exact value. -/
inductive PyFloat where
  | nan
  | val (q : Rat)
deriving DecidableEq, Repr

/-- Python `<` between a float and a threshold: NaN compares false. -/
def pyFloatLt : PyFloat → Rat → Bool
  | .nan, _ => false
  | .val q, t => decide (q < t)

/-- Models Python `float(s)` on plain decimal string literals (optional sign,
digits, optional fractional part, surrounding whitespace).  The wider Python
grammar (exponents, `inf`/`nan`, underscores) never reaches this repository's
code paths and is treated as unparseable. -/
def parseDecimal (s : String) : Option Rat :=
  let t := (pyStrip s).toList
  let sign : Rat := if t.headD ' ' = '-' then -1 else 1
  let body := if t.headD ' ' = '-' ∨ t.headD ' ' = '+' then t.drop 1 else t
  match body.splitOn '.' with
  | [intPart] =>
    if intPart.isEmpty then none
    else (digitsToNat intPart).map (fun n => sign * (n : Rat))
  | [intPart, fracPart] =>
    if intPart.isEmpty && fracPart.isEmpty then none
    else
      match digitsToNat intPart, digitsToNat fracPart with
      | some a, some b =>
        some (sign * ((a : Rat) + (b : Rat) / ((10 : Rat) ^ fracPart.length)))
      | _, _ => none
  | _ => none

/-- Models Python `float(x)`: `.error` stands for the raised
`TypeError`/`ValueError`. -/
def toFloatE : PyVal → Except Unit PyFloat
  | .num q => .ok (.val q)
  | .nan => .ok .nan
  | .boolean b => .ok (.val (if b then 1 else 0))
  | .str s =>
    match parseDecimal s with
    | some q => .ok (.val q)
    | none => .error ()
  | .pynone => .error ()
  | .df _ => .error ()

/-- A financial-statement DataFrame (`income_stmt`, `balance_sheet`,
`cashflow`): column labels (most recent first) and labelled rows of values,
one value per column. -/
structure FinStmt where
  cols : List String
  rows : List (String × List PyVal)
deriving DecidableEq, Repr

/-- pandas `df.empty`: no columns or no rows. -/
def FinStmt.isEmpty (s : FinStmt) : Bool := s.cols.isEmpty || s.rows.isEmpty

/-- pandas `df.iloc[:, 0]`: the most recent column as a labelled series. -/
def FinStmt.latest (s : FinStmt) : PyDict :=
  s.rows.map (fun r => (r.1, r.2.headD PyVal.nan))

/-- Model of `DataFetcher._safe_get`: series lookup with missing keys,
NaN/None entries and float-conversion failures all mapped to `None`. -/
def safeGet (series : PyDict) (k : String) : PyVal :=
  match series.lookup k with
  | none => PyVal.pynone
  | some v =>
    if pdIsNa v then PyVal.pynone
    else
      match toFloatE v with
      | .ok (.val q) => PyVal.num q
      | .ok .nan => PyVal.pynone
      | .error _ => PyVal.pynone

/-- Loop body of `DataFetcher._get_historical_series`: walk the (column,
value) pairs, skip NaN entries, record converted floats; a conversion
exception aborts the loop and the partial result is returned (the
surrounding `try` swallows it). -/
def getHistoricalSeriesGo : List (String × PyVal) → PyDict
  | [] => []
  | cv :: rest =>
    if pdIsNa cv.2 then getHistoricalSeriesGo rest
    else
      match toFloatE cv.2 with
      | .ok (.val q) => (cv.1, PyVal.num q) :: getHistoricalSeriesGo rest
      | .ok .nan => (cv.1, PyVal.nan) :: getHistoricalSeriesGo rest
      | .error _ => []

/-- Model of `DataFetcher._get_historical_series` for one statement row. -/
def getHistoricalSeries (s : FinStmt) (rowName : String) : PyDict :=
  match s.rows.lookup rowName with
  | none => []
  | some vals => getHistoricalSeriesGo (s.cols.zip vals)

/-- The `financials` dict built by `DataFetcher.get_financial_data`.  Python
keeps `historical_revenue` as a nested dict inside `income_statement`; it is
a sibling field here because `PyVal` has no nested dicts.  The top-level
`error` key is kept for shape fidelity; it is never set because everything
inside the outer `try` catches its own exceptions. -/
structure Financials where
  incomeStatement : PyDict
  historicalRevenue : PyDict
  balanceSheet : PyDict
  cashFlow : PyDict
  keyMetrics : PyDict
  error : Option String
deriving DecidableEq, Repr

/-- The `key_metrics` dict of `get_financial_data`, populated from
`info.get(...)` in source order. -/
def keyMetricsDict (info : PyDict) : PyDict :=
  [("market_cap", pyGet info "marketCap"),
   ("enterprise_value", pyGet info "enterpriseValue"),
   ("trailing_pe", pyGet info "trailingPE"),
   ("forward_pe", pyGet info "forwardPE"),
   ("peg_ratio", pyGet info "pegRatio"),
   ("price_to_book", pyGet info "priceToBook"),
   ("price_to_sales", pyGet info "priceToSalesTrailing12Months"),
   ("enterprise_to_revenue", pyGet info "enterpriseToRevenue"),
   ("enterprise_to_ebitda", pyGet info "enterpriseToEbitda"),
   ("profit_margins", pyGet info "profitMargins"),
   ("gross_margins", pyGet info "grossMargins"),
   ("operating_margins", pyGet info "operatingMargins"),
   ("revenue_growth", pyGet info "revenueGrowth"),
   ("earnings_growth", pyGet info "earningsGrowth"),
   ("current_ratio", pyGet info "currentRatio"),
   ("quick_ratio", pyGet info "quickRatio"),
   ("debt_to_equity", pyGet info "debtToEquity"),
   ("return_on_equity", pyGet info "returnOnEquity"),
   ("return_on_assets", pyGet info "returnOnAssets"),
   ("free_cash_flow", pyGet info "freeCashflow"),
   ("operating_cash_flow", pyGet info "operatingCashflow"),
   ("total_cash", pyGet info "totalCash"),
   ("total_debt", pyGet info "totalDebt"),
   ("total_revenue", pyGet info "totalRevenue"),
   ("revenue_per_share", pyGet info "revenuePerShare"),
   ("dividend_yield", pyGet info "dividendYield"),
   ("payout_ratio", pyGet info "payoutRatio"),
   ("beta", pyGet info "beta"),
   ("52_week_high", pyGet info "fiftyTwoWeekHigh"),
   ("52_week_low", pyGet info "fiftyTwoWeekLow"),
   ("50_day_average", pyGet info "fiftyDayAverage"),
   ("200_day_average", pyGet info "twoHundredDayAverage"),
   ("shares_outstanding", pyGet info "sharesOutstanding"),
   ("float_shares", pyGet info "floatShares"),
   ("shares_short", pyGet info "sharesShort"),
   ("short_ratio", pyGet info "shortRatio")]

/-- The income-statement block of `get_financial_data`: the five latest
figures plus the historical revenue series; an exception from the
`income_stmt` property yields just an `error` entry, and a missing or empty
statement leaves the dict empty. -/
def incomeStatementBlock (fetch : Except String (Option FinStmt)) :
    PyDict × PyDict :=
  match fetch with
  | .error e => ([("error", PyVal.str e)], [])
  | .ok none => ([], [])
  | .ok (some stmt) =>
    if stmt.isEmpty then ([], [])
    else
      let latest := stmt.latest
      ([("total_revenue", safeGet latest "Total Revenue"),
        ("gross_profit", safeGet latest "Gross Profit"),
        ("operating_income", safeGet latest "Operating Income"),
        ("net_income", safeGet latest "Net Income"),
        ("ebitda", safeGet latest "EBITDA")],
       getHistoricalSeries stmt "Total Revenue")

/-- The balance-sheet block of `get_financial_data`. -/
def balanceSheetBlock (fetch : Except String (Option FinStmt)) : PyDict :=
  match fetch with
  | .error e => [("error", PyVal.str e)]
  | .ok none => []
  | .ok (some stmt) =>
    if stmt.isEmpty then []
    else
      let latest := stmt.latest
      [("total_assets", safeGet latest "Total Assets"),
       ("total_liabilities", safeGet latest "Total Liabilities Net Minority Interest"),
       ("total_equity", safeGet latest "Stockholders Equity"),
       ("current_assets", safeGet latest "Current Assets"),
       ("current_liabilities", safeGet latest "Current Liabilities"),
       ("cash_and_equivalents", safeGet latest "Cash And Cash Equivalents"),
       ("total_debt", safeGet latest "Total Debt"),
       ("long_term_debt", safeGet latest "Long Term Debt")]

/-- The cash-flow block of `get_financial_data`. -/
def cashFlowBlock (fetch : Except String (Option FinStmt)) : PyDict :=
  match fetch with
  | .error e => [("error", PyVal.str e)]
  | .ok none => []
  | .ok (some stmt) =>
    if stmt.isEmpty then []
    else
      let latest := stmt.latest
      [("operating_cash_flow", safeGet latest "Operating Cash Flow"),
       ("capital_expenditure", safeGet latest "Capital Expenditure"),
       ("free_cash_flow", safeGet latest "Free Cash Flow"),
       ("dividends_paid", safeGet latest "Cash Dividends Paid")]

/-- The `DataFetcher` object: the normalized ticker plus the three caches
(`_info`, `_history`, `_financials`). -/
structure DataFetcher where
  ticker : String
  info : Option PyDict
  history : Option (List PriceRow)
  financials : Option Financials
deriving DecidableEq, Repr

/-- `DataFetcher.__init__`: `self.ticker = ticker.upper().strip()`, caches
empty. -/
def DataFetcher.init (ticker : String) : DataFetcher :=
  { ticker := pyStrip (pyUpper ticker), info := none, history := none,
    financials := none }

/-- The remote fetches a `DataFetcher` can perform, as oracles; `.error`
stands for a raised exception. -/
structure FetchOracles where
  infoFetch : Except String PyDict
  backupHist : Except String (List PriceRow)
  incomeStmt : Except String (Option FinStmt)
  balanceSheet : Except String (Option FinStmt)
  cashFlow : Except String (Option FinStmt)

/-- Model of `DataFetcher._fetch_info_backup`: try a 5-day history fetch;
a non-empty history yields a minimal info dict from its last close, anything
else yields the fixed error dict. -/
def fetchInfoBackup (ticker : String)
    (histFetch : Except String (List PriceRow)) : PyDict :=
  match histFetch with
  | .error _ => [("error", PyVal.str "Could not fetch stock info")]
  | .ok hist =>
    match hist.getLast? with
    | none => [("error", PyVal.str "Could not fetch stock info")]
    | some row =>
      [("regularMarketPrice", PyVal.num row.close),
       ("symbol", PyVal.str ticker),
       ("shortName", PyVal.str ticker)]

/-- Model of `DataFetcher.get_stock_info`.  Returns the info dict, the new
fetcher state, and the number of remote fetches performed (the backup path
performs a second fetch). -/
def getStockInfo (st : DataFetcher) (infoFetch : Except String PyDict)
    (histFetch : Except String (List PriceRow)) :
    PyDict × DataFetcher × Nat :=
  match st.info with
  | some i => (i, st, 0)
  | none =>
    match infoFetch with
    | .error e =>
      let i : PyDict := [("error", PyVal.str e)]
      (i, { st with info := some i }, 1)
    | .ok i0 =>
      if i0.isEmpty ∨ pyGet i0 "regularMarketPrice" = PyVal.pynone then
        let i := fetchInfoBackup st.ticker histFetch
        (i, { st with info := some i }, 2)
      else (i0, { st with info := some i0 }, 1)

/-- Model of `DataFetcher.get_price_history`.  `fetch1` is
`stock.history(...)`, `fetch2` the `yf.download` fallback used when the
first result is empty; an exception from either sets the cache to an empty
DataFrame.  (`reset_index`/column renaming are identity on this row model.)
Returns the DataFrame, the new state, and the number of fetches. -/
def getPriceHistory (st : DataFetcher)
    (fetch1 fetch2 : Except String (List PriceRow)) :
    PyVal × DataFetcher × Nat :=
  if st.history = none ∨ st.history = some [] then
    match fetch1 with
    | .error _ => (PyVal.df [], { st with history := some [] }, 1)
    | .ok h1 =>
      if h1.isEmpty then
        match fetch2 with
        | .error _ => (PyVal.df [], { st with history := some [] }, 2)
        | .ok h2 => (PyVal.df h2, { st with history := some h2 }, 2)
      else (PyVal.df h1, { st with history := some h1 }, 1)
  else (PyVal.df (st.history.getD []), st, 0)

/-- Model of `DataFetcher.get_financial_data`: cached after the first call;
otherwise builds the four blocks (consulting `get_stock_info`, which may
itself fetch) and performs the three statement fetches. -/
def getFinancialData (st : DataFetcher) (o : FetchOracles) :
    Financials × DataFetcher × Nat :=
  match st.financials with
  | some f => (f, st, 0)
  | none =>
    let r := getStockInfo st o.infoFetch o.backupHist
    let inc := incomeStatementBlock o.incomeStmt
    let f : Financials :=
      { keyMetrics := keyMetricsDict r.1
        incomeStatement := inc.1
        historicalRevenue := inc.2
        balanceSheet := balanceSheetBlock o.balanceSheet
        cashFlow := cashFlowBlock o.cashFlow
        error := none }
    (f, { r.2.1 with financials := some f }, r.2.2 + 3)

/-- Model of `DataFetcher.is_pre_revenue`: missing (`None`) revenue, or a
`float()` conversion failure, counts as pre-revenue; otherwise compare the
float against the threshold (NaN compares false). -/
def isPreRevenue (st : DataFetcher) (o : FetchOracles) (threshold : Rat) :
    Bool × DataFetcher × Nat :=
  let r := getFinancialData st o
  let revenue := pyGet r.1.keyMetrics "total_revenue"
  if revenue = PyVal.pynone then (true, r.2.1, r.2.2)
  else
    match toFloatE revenue with
    | .ok pf => (pyFloatLt pf threshold, r.2.1, r.2.2)
    | .error _ => (true, r.2.1, r.2.2)

/-- The default threshold of `is_pre_revenue`. -/
def defaultPreRevenueThreshold : Rat := 1000000

/-- Loop of the rolling mean: `rev` holds the values seen so far, most
recent first; each output entry is the mean of the latest `w` values when at
least `w` have been seen, `None` otherwise. -/
def rollingMeanGo (w : Nat) (rev : List Rat) : List Rat → List (Option Rat)
  | [] => []
  | x :: rest =>
    let rev2 := x :: rev
    (if w ≤ rev2.length then some ((rev2.take w).sum / (w : Rat)) else none)
      :: rollingMeanGo w rev2 rest

/-- Models `series.rolling(window=w).mean()` on a NaN-free series (pandas
default `min_periods = window`): entry `i` is the mean of the `w` values
ending at `i`, or `None` when fewer than `w` values are available. -/
def rollingMean (w : Nat) (xs : List Rat) : List (Option Rat) :=
  rollingMeanGo w [] xs

/-- The window `Close[i-w+1 .. i]` of a series, as a list slice. -/
def windowSlice (w i : Nat) (xs : List Rat) : List Rat :=
  (xs.take (i + 1)).drop (i + 1 - w)

/-- The `ChartBuilder` object: the price DataFrame, the normalized ticker,
and the indicator columns added by `_prepare_data`. -/
structure ChartBuilder where
  df : List PriceRow
  ticker : String
  ma50 : List (Option Rat)
  ma200 : List (Option Rat)
  avgVolume : List (Option Rat)
  volumeColor : List String
deriving DecidableEq, Repr

/-- Model of `ChartBuilder._prepare_data`: on a non-empty frame add the
MA50/MA200/Avg_Volume rolling means and the volume colors (the
Date-to-datetime normalization is identity on this row model). -/
def prepareData (cb : ChartBuilder) : ChartBuilder :=
  if cb.df.isEmpty then cb
  else
    { cb with
      ma50 := rollingMean 50 (cb.df.map (·.close))
      ma200 := rollingMean 200 (cb.df.map (·.close))
      avgVolume := rollingMean 50 (cb.df.map (·.volume))
      volumeColor := cb.df.map (fun r =>
        if r.close ≥ r.openPrice then "rgba(38, 166, 91, 0.7)"
        else "rgba(231, 76, 60, 0.7)") }

/-- `ChartBuilder.__init__`: copy the frame, uppercase the ticker, then
`_prepare_data`. -/
def ChartBuilder.init (df : List PriceRow) (ticker : String) : ChartBuilder :=
  prepareData
    { df := df, ticker := pyUpper ticker, ma50 := [], ma200 := [],
      avgVolume := [], volumeColor := [] }

/-- The MA columns computed inside `format_price_data_for_llm`
(`df_full["Close"].rolling(window=w).mean()` over the full history). -/
def priceDataMA (w : Nat) (rows : List PriceRow) : List (Option Rat) :=
  rollingMean w (rows.map (·.close))

/-- The `ReportGenerator` object. -/
structure ReportGenerator where
  ticker : String
  companyName : String
deriving DecidableEq, Repr

/-- `ReportGenerator.__init__`: `self.ticker = ticker.upper()`. -/
def ReportGenerator.init (ticker companyName : String) : ReportGenerator :=
  { ticker := pyUpper ticker, companyName := companyName }

/-! ## LLM client -/

/-- Outcome of one `messages.create` attempt inside `_call_api`:
a response, an `anthropic.RateLimitError`, or any other exception. -/
inductive ApiOutcome where
  | ok (s : String)
  | rateLimited
  | failure (e : String)
deriving DecidableEq, Repr

/-- An exception escaping `_call_api`. -/
inductive ApiError where
  | rateLimit
  | other (e : String)
deriving DecidableEq, Repr

/-- Observable events of `_call_api`: one outbound attempt, or a sleep. -/
inductive ApiEvent where
  | attempt (n : Nat)
  | sleepFor (secs : Nat)
deriving DecidableEq, Repr

/-- The `for attempt in range(3)` loop of `_call_api`: the oracle gives each
attempt's outcome; `none` in the first component would mean the loop
finished without returning or raising. -/
def callApiGo (o : Nat → ApiOutcome) (attempt : Nat) :
    Nat → Option (Except ApiError String) × List ApiEvent
  | 0 => (none, [])
  | remaining + 1 =>
    match o attempt with
    | .ok s => (some (.ok s), [.attempt attempt])
    | .failure e => (some (.error (.other e)), [.attempt attempt])
    | .rateLimited =>
      if attempt < 2 then
        let r := callApiGo o (attempt + 1) remaining
        (r.1, .attempt attempt :: .sleepFor 65 :: r.2)
      else (some (.error .rateLimit), [.attempt attempt])

/-- Model of `LLMClient._call_api`: run the three-attempt loop; if it were
to fall through, return the literal `"[API call failed]"`. -/
def callApi (o : Nat → ApiOutcome) : Except ApiError String × List ApiEvent :=
  let r := callApiGo o 0 3
  (r.1.getD (.ok "[API call failed]"), r.2)

/-- The number of outbound attempts in an `_call_api` event trace. -/
def attemptCount (tr : List ApiEvent) : Nat :=
  tr.countP (fun e => match e with | .attempt _ => true | _ => false)

/-- The `LLMClient` object (API key elided; only `model` and the fixed
`call_delay` matter to the claims). -/
structure LLMClient where
  model : String
  callDelay : Nat
deriving DecidableEq, Repr

/-- `LLMClient.__init__` with the default model: `call_delay = 60`. -/
def LLMClient.init : LLMClient :=
  { model := "claude-sonnet-4-20250514", callDelay := 60 }

/-- The prompts `run_full_analysis` can issue, by kind (the prompt texts are
elided: no claim depends on them).  Supplemental prompts carry the index of
the uploaded file. -/
inductive PromptKind where
  | finAnalysis
  | techAnalysis
  | moatAnalysis
  | invSummary
  | suppDoc (i : Nat)
  | suppImage (i : Nat)
deriving DecidableEq, Repr

/-- Observable events of `run_full_analysis`: one `_call_api` /
`messages.create` invocation for a prompt, or a `time.sleep`. -/
inductive RunEvent where
  | call (p : PromptKind)
  | sleepFor (secs : Nat)
deriving DecidableEq, Repr

/-- One entry of `supplemental_contents` (only the fields the control flow
reads: `item.get("type")` and `item.get("name")`; the content is used only
inside the elided prompt text). -/
structure SuppItem where
  itemType : Option String
  name : Option String
deriving DecidableEq, Repr

/-- The response text recorded for supplemental item `i`: the image path
catches every exception into `"[Image analysis failed: ...]"`, the document
path catches the `_call_api` exception into `"[Failed: ...]"`. -/
def suppOutput (o : PromptKind → Except String String) (i : Nat)
    (item : SuppItem) : String :=
  if item.itemType = some "image" then
    match o (.suppImage i) with
    | .ok s => s
    | .error e => "[Image analysis failed: " ++ e ++ "]"
  else
    match o (.suppDoc i) with
    | .ok s => s
    | .error e => "[Failed: " ++ e ++ "]"

/-- The supplemental-files loop of `run_full_analysis`: one call per item,
a 45-second sleep between consecutive items (not after the last), each
output prefixed by `### name`. -/
def suppLoop (o : PromptKind → Except String String) (i : Nat) :
    List SuppItem → List String × List RunEvent
  | [] => ([], [])
  | item :: rest =>
    let entry := "### " ++ item.name.getD "Uploaded File" ++ "\n"
      ++ suppOutput o i item
    let ev : List RunEvent :=
      RunEvent.call (if item.itemType = some "image" then .suppImage i
                     else .suppDoc i)
        :: (if rest.isEmpty then [] else [RunEvent.sleepFor 45])
    let r := suppLoop o (i + 1) rest
    (entry :: r.1, ev ++ r.2)

/-- The section strings `_assemble_report` reads from the results dict
(each `None` models a missing key, so `results.get(k, d)` is `getD`). -/
structure Sections where
  summary : Option String
  financials : Option String
  technical : Option String
  competitive : Option String
  supplemental : Option String
deriving DecidableEq, Repr

/-- Model of `LLMClient._assemble_report`; `today` stands for
`datetime.now().strftime("%B %d, %Y")`.  The literal chunks below are
exactly the f-string template of the source. -/
def assembleReport (ticker companyName today : String) (r : Sections) :
    String :=
  let supplemental := r.supplemental.getD ""
  let supplementalSection :=
    if supplemental = "" then "No supplemental materials provided."
    else supplemental
  "# " ++ companyName ++ " (" ++ ticker
    ++ ")\n**Investment Research Report**\n**Generated:** " ++ today
    ++ "\n\n---\n\n## Executive Summary\n\n"
    ++ r.summary.getD "[Summary not available]"
    ++ "\n\n---\n\n## Financial Analysis\n\n"
    ++ r.financials.getD "[Financial analysis not available]"
    ++ "\n\n---\n\n## Technical Analysis\n\n"
    ++ r.technical.getD "[Technical analysis not available]"
    ++ "\n\n---\n\n## Competitive Position & Moat\n\n"
    ++ r.competitive.getD "[Competitive analysis not available]"
    ++ "\n\n---\n\n## Supplemental Analysis\n\n"
    ++ supplementalSection
    ++ "\n\n---\n\n*Disclaimer: This report is for informational purposes only and does not constitute investment advice. Financial data sourced from Yahoo Finance. Analysis based on Claude\x27s training knowledge through early 2025 and does not include real-time news. Always conduct your own due diligence and consult a financial advisor before making investment decisions.*\n"

/-- The results dict at the end of `run_full_analysis`. -/
structure RunResults where
  financials : String
  technical : String
  competitive : String
  summary : String
  supplemental : String
  finalReport : String
  overview : String
  sentiment : String
deriving DecidableEq, Repr

/-- Model of `LLMClient.run_full_analysis`.  The oracle gives, per prompt,
the `_call_api` result (`.error` models a raised exception, caught into the
per-section placeholder).  Progress callbacks print only and are elided;
the `[:1500]`-style truncations affect only the elided prompt texts. -/
def runFullAnalysis (c : LLMClient) (o : PromptKind → Except String String)
    (ticker companyName today : String) (supp : List SuppItem) :
    RunResults × List RunEvent :=
  let fin :=
    match o .finAnalysis with
    | .ok s => s
    | .error e => "[Financial analysis failed: " ++ e ++ "]"
  let tech :=
    match o .techAnalysis with
    | .ok s => s
    | .error e => "[Technical analysis failed: " ++ e ++ "]"
  let moat :=
    match o .moatAnalysis with
    | .ok s => s
    | .error e => "[Competitive analysis failed: " ++ e ++ "]"
  let summ :=
    match o .invSummary with
    | .ok s => s
    | .error e => "[Summary failed: " ++ e ++ "]"
  let sl := suppLoop o 0 supp
  let supplemental :=
    if sl.1.isEmpty then "" else String.intercalate "\n\n" sl.1
  let finalReport := assembleReport ticker companyName today
    { summary := some summ, financials := some fin, technical := some tech,
      competitive := some moat, supplemental := some supplemental }
  let overview :=
    if (moat.splitOn "## Competitive Moat").length > 1 then
      (moat.splitOn "## Competitive Moat").headD ""
    else ""
  let events : List RunEvent :=
    [.call .finAnalysis, .sleepFor c.callDelay,
     .call .techAnalysis, .sleepFor c.callDelay,
     .call .moatAnalysis, .sleepFor c.callDelay,
     .call .invSummary]
    ++ (if supp.isEmpty then [] else RunEvent.sleepFor 45 :: sl.2)
  ({ financials := fin, technical := tech, competitive := moat,
     summary := summ, supplemental := supplemental,
     finalReport := finalReport, overview := overview,
     sentiment := "See Summary section for market outlook and catalysts." },
   events)

/-! ## File processor -/

/-- `FileProcessor.SUPPORTED_EXTENSIONS`, in source order. -/
def SUPPORTED_EXTENSIONS : List (String × String) :=
  [("pdf", "document"),
   ("png", "image"), ("jpg", "image"), ("jpeg", "image"),
   ("gif", "image"), ("webp", "image"),
   ("csv", "data"), ("xlsx", "data"), ("xls", "data"),
   ("txt", "text"), ("md", "text")]

/-- `FileProcessor.IMAGE_MIME_TYPES`. -/
def IMAGE_MIME_TYPES : List (String × String) :=
  [("png", "image/png"), ("jpg", "image/jpeg"), ("jpeg", "image/jpeg"),
   ("gif", "image/gif"), ("webp", "image/webp")]

/-- The final component of a path (`PurePath.name`, POSIX separators):
everything after the last slash. -/
def pyPathName (p : String) : String :=
  String.mk ((p.toList.reverse.takeWhile (fun c => c != '/')).reverse)

/-- `pathlib.PurePath(p).suffix`: the final extension with its dot, empty
unless the last dot of the name is at an interior position. -/
def pySuffix (p : String) : String :=
  let cs := (pyPathName p).toList
  match cs.reverse.findIdx? (fun c => c = '.') with
  | none => ""
  | some j =>
    let i := cs.length - 1 - j
    if 0 < i ∧ i < cs.length - 1 then String.mk (cs.drop i) else ""

/-- `Path(filename).suffix.lower().lstrip(".")` as used by the processor. -/
def fileExt (p : String) : String :=
  String.mk
    (((pySuffix p).toList.map Char.toLower).dropWhile (fun c => c = '.'))

/-- Model of `FileProcessor.get_file_type`. -/
def getFileType (filename : String) : Option String :=
  SUPPORTED_EXTENSIONS.lookup (fileExt filename)

/-- Extracted file content: decoded/parsed text, or raw image bytes. -/
inductive FileContent where
  | text (s : String)
  | bytes (b : List Nat)
deriving DecidableEq, Repr

/-- The result dict of `process_file` (Python key `"type"` is `fileType`
here; `media_type` and `error` keys are present only when set). -/
structure ProcResult where
  name : String
  fileType : Option String
  content : Option FileContent
  mediaType : Option String
  error : Option String
deriving DecidableEq, Repr

/-- The external parsing libraries `process_file` dispatches to, as oracles:
`pdfPages` is `PdfReader(...).pages` with each page's `extract_text()`
(`.error` a raised exception), `csvSummary`/`excelSummary` the summary text
the pandas code builds from the parsed frame (`.error` a parsing
exception), and `decodeText` is `bytes.decode("utf-8", errors="replace")`,
which never raises. -/
structure FileOracles where
  pdfPages : Except String (List String)
  csvSummary : Except String String
  excelSummary : Except String String
  decodeText : List Nat → String

/-- Model of `FileProcessor._extract_pdf_text`: number the non-empty page
texts, or return the fixed placeholders on empty output or an exception
(the environment-dependent ImportError branch is not modelled). -/
def extractPdfText (pages : Except String (List String)) : String :=
  match pages with
  | .error e => "[Error extracting PDF text: " ++ e ++ "]"
  | .ok ps =>
    let parts := ps.enum.filterMap (fun it =>
      if it.2 = "" then none
      else some ("--- Page " ++ toString (it.1 + 1) ++ " ---\n" ++ it.2))
    if parts.isEmpty then
      "[PDF contained no extractable text. It may be image-based.]"
    else String.intercalate "\n\n" parts

/-- Model of `FileProcessor._extract_csv_text`: the pandas summary, or the
fixed placeholder on an exception. -/
def extractCsvText (parsed : Except String String) : String :=
  match parsed with
  | .ok s => s
  | .error e => "[Error processing CSV: " ++ e ++ "]"

/-- Model of `FileProcessor._extract_excel_text`. -/
def extractExcelText (parsed : Except String String) : String :=
  match parsed with
  | .ok s => s
  | .error e => "[Error processing Excel: " ++ e ++ "]"

/-- Model of `FileProcessor.process_file` on already-read bytes (the
file-like `read`/`seek` handling is identity here).  Every extraction
helper catches its own exceptions and returns a string, so the `try` body
of `process_file` cannot raise and the result never carries both content
and an error. -/
def processFile (o : FileOracles) (fileBytes : List Nat)
    (filename : String) : ProcResult :=
  let ext := fileExt filename
  match getFileType filename with
  | none =>
    { name := filename, fileType := none, content := none,
      mediaType := none, error := some ("Unsupported file type: ." ++ ext) }
  | some ft =>
    if ft = "document" then
      { name := filename, fileType := some "text",
        content := some (.text (extractPdfText o.pdfPages)),
        mediaType := none, error := none }
    else if ft = "image" then
      { name := filename, fileType := some "image",
        content := some (.bytes fileBytes),
        mediaType := some ((IMAGE_MIME_TYPES.lookup ext).getD "image/png"),
        error := none }
    else if ft = "data" then
      { name := filename, fileType := some "text",
        content := some (.text (if ext = "csv" then extractCsvText o.csvSummary
                                else extractExcelText o.excelSummary)),
        mediaType := none, error := none }
    else if ft = "text" then
      { name := filename, fileType := some "text",
        content := some (.text (o.decodeText fileBytes)),
        mediaType := none, error := none }
    else
      { name := filename, fileType := none, content := none,
        mediaType := none, error := none }

/-! ## Spec-side definitions and small helpers used by the claims -/

/-- True exactly for the values the spec calls a "placeholder string or
None". -/
def isStrOrNone : PyVal → Bool
  | .str _ => true
  | .pynone => true
  | _ => false

/-- True exactly for the four analysis prompts of `run_full_analysis`. -/
def isAnalysisCall : RunEvent → Bool
  | .call .finAnalysis => true
  | .call .techAnalysis => true
  | .call .moatAnalysis => true
  | .call .invSummary => true
  | _ => false

/-- True for any outbound LLM call event. -/
def isCallEvent : RunEvent → Bool
  | .call _ => true
  | _ => false

/-- A results dict with every section key absent. -/
def emptySections : Sections :=
  { summary := none, financials := none, technical := none,
    competitive := none, supplemental := none }

/-- Whether `pat` occurs at the head of `l`. -/
def headMatches : List Char → List Char → Bool
  | [], _ => true
  | _ :: _, [] => false
  | a :: as, b :: bs => a = b && headMatches as bs

/-- Whether `pat` occurs anywhere in `l` (substring containment on char
lists, used to state counterexamples about produced report text). -/
def containsSub (pat : List Char) : List Char → Bool
  | [] => pat.isEmpty
  | c :: rest => headMatches pat (c :: rest) || containsSub pat rest

/-- A sample OHLCV row used by closed witnesses. -/
def sampleRow : PriceRow :=
  { date := "2024-01-02", openPrice := 10, high := 12, low := 9,
    close := 11, volume := 1000 }

/-- Assembly as claim C6 states it: the fixed template pieces interleaved
with the five section strings in order, each absent section — including
supplemental — replaced by its "[... not available]" placeholder. -/
def claimedReportPieces (ticker companyName today : String) (r : Sections) :
    List String :=
  ["# ", companyName, " (", ticker,
   ")\n**Investment Research Report**\n**Generated:** ", today,
   "\n\n---\n\n## Executive Summary\n\n",
   r.summary.getD "[Summary not available]",
   "\n\n---\n\n## Financial Analysis\n\n",
   r.financials.getD "[Financial analysis not available]",
   "\n\n---\n\n## Technical Analysis\n\n",
   r.technical.getD "[Technical analysis not available]",
   "\n\n---\n\n## Competitive Position & Moat\n\n",
   r.competitive.getD "[Competitive analysis not available]",
   "\n\n---\n\n## Supplemental Analysis\n\n",
   r.supplemental.getD "[Supplemental analysis not available]",
   "\n\n---\n\n*Disclaimer: This report is for informational purposes only and does not constitute investment advice. Financial data sourced from Yahoo Finance. Analysis based on Claude\x27s training knowledge through early 2025 and does not include real-time news. Always conduct your own due diligence and consult a financial advisor before making investment decisions.*\n"]

/-- Assembly as amended: like `claimedReportPieces`, but the supplemental
slot is `"No supplemental materials provided."` whenever the supplemental
section is absent or empty. -/
def amendedReportPieces (ticker companyName today : String) (r : Sections) :
    List String :=
  ["# ", companyName, " (", ticker,
   ")\n**Investment Research Report**\n**Generated:** ", today,
   "\n\n---\n\n## Executive Summary\n\n",
   r.summary.getD "[Summary not available]",
   "\n\n---\n\n## Financial Analysis\n\n",
   r.financials.getD "[Financial analysis not available]",
   "\n\n---\n\n## Technical Analysis\n\n",
   r.technical.getD "[Technical analysis not available]",
   "\n\n---\n\n## Competitive Position & Moat\n\n",
   r.competitive.getD "[Competitive analysis not available]",
   "\n\n---\n\n## Supplemental Analysis\n\n",
   (if r.supplemental.getD "" = "" then "No supplemental materials provided."
    else r.supplemental.getD ""),
   "\n\n---\n\n*Disclaimer: This report is for informational purposes only and does not constitute investment advice. Financial data sourced from Yahoo Finance. Analysis based on Claude\x27s training knowledge through early 2025 and does not include real-time news. Always conduct your own due diligence and consult a financial advisor before making investment decisions.*\n"]

/-! ## Helper lemmas -/

theorem str_empty_append (s : String) : "" ++ s = s := by
  cases s; rfl

theorem str_append_empty (s : String) : s ++ "" = s := by
  cases s with
  | mk data => show String.mk (data ++ []) = String.mk data; rw [List.append_nil]

theorem foldl_append_start (l : List String) :
    ∀ a b : String, l.foldl (· ++ ·) (a ++ b) = a ++ l.foldl (· ++ ·) b := by
  induction l with
  | nil => intro a b; rfl
  | cons x xs ih =>
    intro a b
    show xs.foldl (· ++ ·) (a ++ b ++ x) = a ++ xs.foldl (· ++ ·) (b ++ x)
    rw [String.append_assoc, ih]

theorem strJoin_cons (s : String) (l : List String) :
    String.join (s :: l) = s ++ String.join l := by
  show l.foldl (· ++ ·) ("" ++ s) = s ++ l.foldl (· ++ ·) ""
  rw [str_empty_append, ← str_append_empty s, foldl_append_start,
    str_append_empty]

theorem strJoin_nil : String.join ([] : List String) = "" := rfl

theorem getStockInfo_ticker (st : DataFetcher) (o1 : Except String PyDict)
    (o2 : Except String (List PriceRow)) :
    (getStockInfo st o1 o2).2.1.ticker = st.ticker := by
  unfold getStockInfo
  cases st.info with
  | some i => rfl
  | none =>
    cases o1 with
    | error e => rfl
    | ok i0 =>
      dsimp only
      split <;> rfl

theorem getPriceHistory_ticker (st : DataFetcher)
    (f1 f2 : Except String (List PriceRow)) :
    (getPriceHistory st f1 f2).2.1.ticker = st.ticker := by
  unfold getPriceHistory
  by_cases hc : st.history = none ∨ st.history = some []
  · simp only [hc, if_true]
    cases f1 with
    | error e => rfl
    | ok h1 =>
      by_cases h : h1.isEmpty
      · simp only [h, if_true]
        cases f2 with
        | error e => rfl
        | ok h2 => rfl
      · simp [h]
  · simp [hc]

theorem getFinancialData_ticker (st : DataFetcher) (o : FetchOracles) :
    (getFinancialData st o).2.1.ticker = st.ticker := by
  unfold getFinancialData
  cases st.financials with
  | some f => rfl
  | none => simpa using getStockInfo_ticker st o.infoFetch o.backupHist

/-- Claim C4: a ticker is an uppercase string: the three constructors store
the uppercased input (whitespace-stripped in `DataFetcher`), and every
stateful operation of these classes leaves the stored ticker unchanged. -/
theorem ticker_uppercase_invariant :
    (∀ t, (DataFetcher.init t).ticker = pyStrip (pyUpper t)) ∧
    (∀ t n, (ReportGenerator.init t n).ticker = pyUpper t) ∧
    (∀ df t, (ChartBuilder.init df t).ticker = pyUpper t) ∧
    (∀ st o1 o2, (getStockInfo st o1 o2).2.1.ticker = st.ticker) ∧
    (∀ st f1 f2, (getPriceHistory st f1 f2).2.1.ticker = st.ticker) ∧
    (∀ st o, (getFinancialData st o).2.1.ticker = st.ticker) ∧
    (∀ st o thr, (isPreRevenue st o thr).2.1.ticker = st.ticker) ∧
    (∀ cb, (prepareData cb).ticker = cb.ticker) := by
  have hprep : ∀ cb, (prepareData cb).ticker = cb.ticker := by
    intro cb
    unfold prepareData
    by_cases h : cb.df.isEmpty <;> simp [h]
  refine ⟨fun t => rfl, fun t n => rfl, fun df t => ?_,
    getStockInfo_ticker, getPriceHistory_ticker, getFinancialData_ticker,
    fun st o thr => ?_, hprep⟩
  · rw [ChartBuilder.init, hprep]
  · unfold isPreRevenue
    have h := getFinancialData_ticker st o
    by_cases hn : pyGet (getFinancialData st o).1.keyMetrics "total_revenue"
        = PyVal.pynone
    · simpa [hn] using h
    · cases hf : toFloatE (pyGet (getFinancialData st o).1.keyMetrics
          "total_revenue") <;> simpa [hn, hf] using h

/-- Claim C10: `is_pre_revenue` treats missing data as pre-revenue: absent
(`None`) revenue or a failed float conversion yields `true`; a convertible
value yields `true` exactly when its float is strictly below the threshold
(with NaN comparing false). -/
theorem isPreRevenue_missing_data_spec (st : DataFetcher) (o : FetchOracles)
    (thr : Rat) :
    (pyGet (getFinancialData st o).1.keyMetrics "total_revenue"
        = PyVal.pynone → (isPreRevenue st o thr).1 = true) ∧
    (∀ u, toFloatE (pyGet (getFinancialData st o).1.keyMetrics
        "total_revenue") = Except.error u → (isPreRevenue st o thr).1 = true) ∧
    (∀ q, pyGet (getFinancialData st o).1.keyMetrics "total_revenue"
        ≠ PyVal.pynone →
      toFloatE (pyGet (getFinancialData st o).1.keyMetrics "total_revenue")
        = Except.ok (PyFloat.val q) →
      ((isPreRevenue st o thr).1 = true ↔ q < thr)) ∧
    (pyGet (getFinancialData st o).1.keyMetrics "total_revenue"
        ≠ PyVal.pynone →
      toFloatE (pyGet (getFinancialData st o).1.keyMetrics "total_revenue")
        = Except.ok PyFloat.nan →
      (isPreRevenue st o thr).1 = false) := by
  refine ⟨fun h => ?_, fun u h => ?_, fun q hn h => ?_, fun hn h => ?_⟩
  · simp [isPreRevenue, h]
  · by_cases hn : pyGet (getFinancialData st o).1.keyMetrics "total_revenue"
        = PyVal.pynone
    · simp [isPreRevenue, hn]
    · simp [isPreRevenue, hn, h]
  · simp [isPreRevenue, hn, h, pyFloatLt]
  · simp [isPreRevenue, hn, h, pyFloatLt]

/-- Witness for C10 at a concrete fetcher whose revenue is 500000 against
the default threshold 1000000. -/
theorem isPreRevenue_missing_data_spec_witness :
    (isPreRevenue (DataFetcher.init "tkr")
      { infoFetch := Except.ok [("regularMarketPrice", PyVal.num 10),
          ("totalRevenue", PyVal.num 500000)],
        backupHist := Except.error "offline",
        incomeStmt := Except.ok none,
        balanceSheet := Except.ok none,
        cashFlow := Except.ok none }
      defaultPreRevenueThreshold).1 = true := by
  exact ((isPreRevenue_missing_data_spec (DataFetcher.init "tkr")
      { infoFetch := Except.ok [("regularMarketPrice", PyVal.num 10),
          ("totalRevenue", PyVal.num 500000)],
        backupHist := Except.error "offline",
        incomeStmt := Except.ok none,
        balanceSheet := Except.ok none,
        cashFlow := Except.ok none }
      defaultPreRevenueThreshold).2.2.1 500000 (by decide)
      rfl).mpr (by decide)

theorem getStockInfo_cache (st : DataFetcher) (o1 : Except String PyDict)
    (o2 : Except String (List PriceRow)) :
    (getStockInfo st o1 o2).2.1.info = some (getStockInfo st o1 o2).1 := by
  unfold getStockInfo
  cases h : st.info with
  | some i => dsimp only; exact h
  | none =>
    cases o1 with
    | error e => rfl
    | ok i0 =>
      dsimp only
      split <;> rfl

theorem getFinancialData_cache (st : DataFetcher) (o : FetchOracles) :
    (getFinancialData st o).2.1.financials = some (getFinancialData st o).1 := by
  unfold getFinancialData
  cases h : st.financials with
  | some f => dsimp only; exact h
  | none => rfl

theorem getPriceHistory_df (st : DataFetcher)
    (f1 f2 : Except String (List PriceRow)) :
    (getPriceHistory st f1 f2).1 =
      PyVal.df ((getPriceHistory st f1 f2).2.1.history.getD []) := by
  unfold getPriceHistory
  by_cases hc : st.history = none ∨ st.history = some []
  · simp only [hc, if_true]
    cases f1 with
    | error e => rfl
    | ok h1 =>
      by_cases h : h1.isEmpty
      · simp only [h, if_true]
        cases f2 with
        | error e => rfl
        | ok h2 => rfl
      · simp [h]
  · simp [hc]

/-- Claim C9: the accessors are idempotent via caching: a second call (with
a non-empty cache, which for info and financials always holds after the
first call) returns exactly the first call's object and performs zero
further fetches, whatever oracles the second call is given. -/
theorem fetcher_accessors_cached :
    (∀ st o1 o2 o1b o2b,
      getStockInfo (getStockInfo st o1 o2).2.1 o1b o2b =
        ((getStockInfo st o1 o2).1, (getStockInfo st o1 o2).2.1, 0)) ∧
    (∀ st o ob,
      getFinancialData (getFinancialData st o).2.1 ob =
        ((getFinancialData st o).1, (getFinancialData st o).2.1, 0)) ∧
    (∀ st f1 f2 g1 g2 h,
      (getPriceHistory st f1 f2).2.1.history = some h → h ≠ [] →
      getPriceHistory (getPriceHistory st f1 f2).2.1 g1 g2 =
        ((getPriceHistory st f1 f2).1, (getPriceHistory st f1 f2).2.1, 0)) := by
  refine ⟨fun st o1 o2 o1b o2b => ?_, fun st o ob => ?_,
    fun st f1 f2 g1 g2 h hcache hne => ?_⟩
  · conv_lhs => rw [getStockInfo.eq_def]
    rw [getStockInfo_cache st o1 o2]
  · conv_lhs => rw [getFinancialData.eq_def]
    rw [getFinancialData_cache st o]
  · have hdf := getPriceHistory_df st f1 f2
    rw [hcache, Option.getD_some] at hdf
    conv_lhs => rw [getPriceHistory.eq_def]
    rw [hcache]
    have hcond : ¬((some h : Option (List PriceRow)) = none ∨
        (some h : Option (List PriceRow)) = some []) := by
      simp [hne]
    rw [if_neg hcond]
    simp [hdf]

/-- Witness for C9's price-history conjunct at a concrete one-row fetch. -/
theorem fetcher_accessors_cached_witness :
    getPriceHistory
        (getPriceHistory (DataFetcher.init "a") (Except.ok [sampleRow])
          (Except.error "down")).2.1
        (Except.error "x") (Except.error "y") =
      ((getPriceHistory (DataFetcher.init "a") (Except.ok [sampleRow])
          (Except.error "down")).1,
       (getPriceHistory (DataFetcher.init "a") (Except.ok [sampleRow])
          (Except.error "down")).2.1, 0) := by
  exact fetcher_accessors_cached.2.2 (DataFetcher.init "a")
    (Except.ok [sampleRow]) (Except.error "down") (Except.error "x")
    (Except.error "y") [sampleRow] (by decide) (by decide)

/-- Counterexample to C2 as stated: when the wrapped price-history fetch
raises, `get_price_history` substitutes an empty DataFrame — which is
neither a placeholder string nor `None`. -/
theorem wrapped_call_fallback_counterexample :
    (getPriceHistory (DataFetcher.init "TKR") (Except.error "connection error")
        (Except.error "connection error")).1 = PyVal.df [] ∧
    isStrOrNone (getPriceHistory (DataFetcher.init "TKR")
        (Except.error "connection error") (Except.error "connection error")).1
      = false := by
  constructor <;> decide

/-- Claim C2 as amended: a raised exception from a wrapped call is caught
and a fallback is substituted — a placeholder string for the LLM analysis
calls and the file-extraction helpers, an empty DataFrame for price
history, an error dict for stock info — never propagated. -/
theorem wrapped_call_fallbacks :
    (∀ st e f2, st.history = none →
      getPriceHistory st (Except.error e) f2 =
        (PyVal.df [], { st with history := some [] }, 1)) ∧
    (∀ st e b, st.info = none →
      getStockInfo st (Except.error e) b =
        ([("error", PyVal.str e)],
         { st with info := some [("error", PyVal.str e)] }, 1)) ∧
    (∀ c o tk cn td supp e, o PromptKind.finAnalysis = Except.error e →
      (runFullAnalysis c o tk cn td supp).1.financials =
        "[Financial analysis failed: " ++ e ++ "]") ∧
    (∀ c o tk cn td supp e, o PromptKind.techAnalysis = Except.error e →
      (runFullAnalysis c o tk cn td supp).1.technical =
        "[Technical analysis failed: " ++ e ++ "]") ∧
    (∀ c o tk cn td supp e, o PromptKind.moatAnalysis = Except.error e →
      (runFullAnalysis c o tk cn td supp).1.competitive =
        "[Competitive analysis failed: " ++ e ++ "]") ∧
    (∀ c o tk cn td supp e, o PromptKind.invSummary = Except.error e →
      (runFullAnalysis c o tk cn td supp).1.summary =
        "[Summary failed: " ++ e ++ "]") ∧
    (∀ e, extractPdfText (Except.error e) =
      "[Error extracting PDF text: " ++ e ++ "]") ∧
    (∀ e, extractCsvText (Except.error e) =
      "[Error processing CSV: " ++ e ++ "]") ∧
    (∀ e, extractExcelText (Except.error e) =
      "[Error processing Excel: " ++ e ++ "]") := by
  refine ⟨fun st e f2 hh => ?_, fun st e b hi => ?_,
    fun c o tk cn td supp e h => ?_, fun c o tk cn td supp e h => ?_,
    fun c o tk cn td supp e h => ?_, fun c o tk cn td supp e h => ?_,
    fun e => rfl, fun e => rfl, fun e => rfl⟩
  · rw [getPriceHistory]
    simp [hh]
  · rw [getStockInfo, hi]
  · simp [runFullAnalysis, h]
  · simp [runFullAnalysis, h]
  · simp [runFullAnalysis, h]
  · simp [runFullAnalysis, h]

/-- Witness for C2 (amended) at a concrete failing fetch. -/
theorem wrapped_call_fallbacks_witness :
    getPriceHistory (DataFetcher.init "A") (Except.error "boom")
        (Except.error "z") =
      (PyVal.df [], { DataFetcher.init "A" with history := some [] }, 1) := by
  exact wrapped_call_fallbacks.1 (DataFetcher.init "A") "boom"
    (Except.error "z") rfl

/-- Claim C7: `process_file` dispatches purely by the lowercased filename
extension through `SUPPORTED_EXTENSIONS`: pdf to extracted text, the image
extensions to raw bytes with a MIME media type, csv/xlsx/xls to a text
summary, txt/md to decoded text; an unsupported extension yields an error
message with `type` and `content` still `None`.  The final conjunct states
content-independence: type, media type and error do not depend on the
bytes. -/
theorem processFile_dispatch_by_extension (o : FileOracles)
    (b : List Nat) (f : String) :
    getFileType f = SUPPORTED_EXTENSIONS.lookup (fileExt f) ∧
    (getFileType f = none →
      processFile o b f =
        { name := f, fileType := none, content := none, mediaType := none,
          error := some ("Unsupported file type: ." ++ fileExt f) }) ∧
    (getFileType f = some "document" →
      processFile o b f =
        { name := f, fileType := some "text",
          content := some (.text (extractPdfText o.pdfPages)),
          mediaType := none, error := none }) ∧
    (getFileType f = some "image" →
      processFile o b f =
        { name := f, fileType := some "image",
          content := some (.bytes b),
          mediaType := some ((IMAGE_MIME_TYPES.lookup (fileExt f)).getD
            "image/png"),
          error := none }) ∧
    (getFileType f = some "data" →
      processFile o b f =
        { name := f, fileType := some "text",
          content := some (.text (if fileExt f = "csv"
            then extractCsvText o.csvSummary
            else extractExcelText o.excelSummary)),
          mediaType := none, error := none }) ∧
    (getFileType f = some "text" →
      processFile o b f =
        { name := f, fileType := some "text",
          content := some (.text (o.decodeText b)),
          mediaType := none, error := none }) ∧
    (∀ b2, (processFile o b2 f).fileType = (processFile o b f).fileType ∧
      (processFile o b2 f).mediaType = (processFile o b f).mediaType ∧
      (processFile o b2 f).error = (processFile o b f).error) := by
  have hdisp : getFileType f = SUPPORTED_EXTENSIONS.lookup (fileExt f) := rfl
  refine ⟨hdisp, fun h => ?_, fun h => ?_, fun h => ?_, fun h => ?_,
    fun h => ?_, fun b2 => ?_⟩
  · rw [processFile.eq_def, h]
  · rw [processFile.eq_def, h]
    dsimp only
    rw [if_pos rfl]
  · rw [processFile.eq_def, h]
    dsimp only
    rw [if_neg (by decide), if_pos rfl]
  · rw [processFile.eq_def, h]
    dsimp only
    rw [if_neg (by decide), if_neg (by decide), if_pos rfl]
  · rw [processFile.eq_def, h]
    dsimp only
    rw [if_neg (by decide), if_neg (by decide), if_neg (by decide),
      if_pos rfl]
  · rw [processFile.eq_def, processFile.eq_def]
    cases h : getFileType f with
    | none => exact ⟨rfl, rfl, rfl⟩
    | some ft =>
      dsimp only
      by_cases h1 : ft = "document"
      · simp [h1]
      · by_cases h2 : ft = "image"
        · simp [h1, h2]
        · by_cases h3 : ft = "data"
          · simp [h1, h2, h3]
          · by_cases h4 : ft = "text" <;> simp [h1, h2, h3, h4]

/-- Witness for C7 at a concrete uppercase-extension PDF filename. -/
theorem processFile_dispatch_by_extension_witness :
    processFile
        { pdfPages := Except.ok ["hello"], csvSummary := Except.error "x",
          excelSummary := Except.error "y", decodeText := fun _ => "t" }
        [1, 2, 3] "Quarterly Report.PDF" =
      { name := "Quarterly Report.PDF", fileType := some "text",
        content := some (.text (extractPdfText (Except.ok ["hello"]))),
        mediaType := none, error := none } := by
  exact (processFile_dispatch_by_extension
      { pdfPages := Except.ok ["hello"], csvSummary := Except.error "x",
        excelSummary := Except.error "y", decodeText := fun _ => "t" }
      [1, 2, 3] "Quarterly Report.PDF").2.2.1 (by decide)

/-- Claim C3: `_call_api` retries with a fixed-count loop and fixed delay:
at most 3 attempts per prompt, a fixed 65-second sleep after a rate-limit
error on a non-final attempt, the rate-limit error re-raised when the third
attempt also rate-limits, and any non-rate-limit exception propagating
immediately without retry.  The conjuncts characterize every possible
oracle behaviour. -/
theorem callApi_retry_policy (o : Nat → ApiOutcome) :
    attemptCount (callApi o).2 ≤ 3 ∧
    (∀ s, o 0 = .ok s →
      callApi o = (.ok s, [.attempt 0])) ∧
    (∀ e, o 0 = .failure e →
      callApi o = (.error (.other e), [.attempt 0])) ∧
    (∀ s, o 0 = .rateLimited → o 1 = .ok s →
      callApi o = (.ok s, [.attempt 0, .sleepFor 65, .attempt 1])) ∧
    (∀ e, o 0 = .rateLimited → o 1 = .failure e →
      callApi o =
        (.error (.other e), [.attempt 0, .sleepFor 65, .attempt 1])) ∧
    (∀ s, o 0 = .rateLimited → o 1 = .rateLimited → o 2 = .ok s →
      callApi o = (.ok s,
        [.attempt 0, .sleepFor 65, .attempt 1, .sleepFor 65, .attempt 2])) ∧
    (∀ e, o 0 = .rateLimited → o 1 = .rateLimited → o 2 = .failure e →
      callApi o = (.error (.other e),
        [.attempt 0, .sleepFor 65, .attempt 1, .sleepFor 65, .attempt 2])) ∧
    (o 0 = .rateLimited → o 1 = .rateLimited → o 2 = .rateLimited →
      callApi o = (.error .rateLimit,
        [.attempt 0, .sleepFor 65, .attempt 1, .sleepFor 65, .attempt 2])) := by
  refine ⟨?_, fun s h0 => ?_, fun e h0 => ?_, fun s h0 h1 => ?_,
    fun e h0 h1 => ?_, fun s h0 h1 h2 => ?_, fun e h0 h1 h2 => ?_,
    fun h0 h1 h2 => ?_⟩
  · cases h0 : o 0 <;> cases h1 : o 1 <;> cases h2 : o 2 <;>
      simp [callApi, callApiGo, attemptCount, h0, h1, h2]
  all_goals simp [callApi, callApiGo, *]

/-- Witness for C3 at an oracle that succeeds immediately. -/
theorem callApi_retry_policy_witness :
    callApi (fun _ => ApiOutcome.ok "response") =
      (Except.ok "response", [ApiEvent.attempt 0]) := by
  exact (callApi_retry_policy (fun _ => ApiOutcome.ok "response")).2.1
    "response" rfl

/-- Claim C8: the `"[API call failed]"` fallback after the retry loop of
`_call_api` is unreachable: for every oracle the loop itself produces the
result (returning or raising), so `callApi` never takes the `getD`
default. -/
theorem callApi_fallback_unreachable (o : Nat → ApiOutcome) :
    ∃ r, (callApiGo o 0 3).1 = some r ∧ (callApi o).1 = r := by
  cases h0 : o 0 <;> cases h1 : o 1 <;> cases h2 : o 2 <;>
    simp [callApi, callApiGo, h0, h1, h2]

theorem suppLoop_no_analysisCall (o : PromptKind → Except String String) :
    ∀ (items : List SuppItem) (i : Nat),
      ((suppLoop o i items).2).countP (fun e => isAnalysisCall e) = 0 := by
  intro items
  induction items with
  | nil => intro i; simp [suppLoop]
  | cons item rest ih =>
    intro i
    simp only [suppLoop, List.countP_append, List.countP_cons, ih]
    by_cases himg : item.itemType = some "image" <;>
      by_cases hr : rest.isEmpty <;>
        simp [himg, hr, isAnalysisCall, List.countP] <;> rfl

/-- Claim C1: `run_full_analysis` issues the four analysis prompts in the
fixed order financial, technical, competitive-moat, investment-summary,
with the fixed `call_delay = 60` sleep between consecutive prompts; no
prompt is reordered, skipped or interleaved, and the remaining trace (the
supplemental-file loop) contains no analysis prompt. -/
theorem runFullAnalysis_fixed_sequence (o : PromptKind → Except String String)
    (tk cn td : String) (supp : List SuppItem) :
    LLMClient.init.callDelay = 60 ∧
    ∃ tail,
      (runFullAnalysis LLMClient.init o tk cn td supp).2 =
        [RunEvent.call PromptKind.finAnalysis, RunEvent.sleepFor 60,
         RunEvent.call PromptKind.techAnalysis, RunEvent.sleepFor 60,
         RunEvent.call PromptKind.moatAnalysis, RunEvent.sleepFor 60,
         RunEvent.call PromptKind.invSummary] ++ tail ∧
      tail.countP (fun e => isAnalysisCall e) = 0 := by
  refine ⟨rfl,
    (if supp.isEmpty then []
     else RunEvent.sleepFor 45 :: (suppLoop o 0 supp).2), rfl, ?_⟩
  by_cases hs : supp.isEmpty
  · simp [hs]
  · rw [if_neg hs, List.countP_cons, suppLoop_no_analysisCall o supp 0]
    rfl

set_option maxRecDepth 100000 in
/-- Counterexample to C6 as stated: with every section absent, the report
`_assemble_report` produces differs from the claimed template (which would
put a "[... not available]" placeholder in the supplemental slot): the code
substitutes `"No supplemental materials provided."` there instead. -/
theorem assembleReport_placeholder_counterexample :
    assembleReport "TKR" "TestCo" "January 01, 2026" emptySections ≠
      String.join
        (claimedReportPieces "TKR" "TestCo" "January 01, 2026"
          emptySections) ∧
    containsSub "No supplemental materials provided.".toList
      (assembleReport "TKR" "TestCo" "January 01, 2026"
        emptySections).toList = true := by
  constructor <;> decide

/-- Claim C6 as amended: the final report is the fixed Markdown template
pieces joined in order — header, then the summary, financials, technical,
competitive and supplemental sections, then the disclaimer — with each
absent analysis section replaced by its "[... not available]" placeholder
and an absent-or-empty supplemental section replaced by
`"No supplemental materials provided."`; and a full run with no
supplemental files makes exactly the 4 analysis LLM calls, so assembling
the final report issues no additional call. -/
theorem assembleReport_template (t c d : String) (r : Sections) :
    assembleReport t c d r = String.join (amendedReportPieces t c d r) ∧
    (∀ o tk cn td,
      ((runFullAnalysis LLMClient.init o tk cn td []).2).countP
        (fun e => isCallEvent e) = 4) := by
  constructor
  · simp only [amendedReportPieces, strJoin_cons, strJoin_nil,
      str_append_empty, assembleReport, String.append_assoc]
  · intro o tk cn td
    rfl

theorem rollingMeanGo_get (w : Nat) :
    ∀ (ys rev : List Rat) (i : Nat), i < ys.length →
      (rollingMeanGo w rev ys)[i]? =
        some (if w ≤ i + 1 + rev.length
          then some ((((ys.take (i + 1)).reverse ++ rev).take w).sum /
            (w : Rat))
          else none) := by
  intro ys
  induction ys with
  | nil => intro rev i h; simp at h
  | cons x rest ih =>
    intro rev i h
    cases i with
    | zero =>
      rw [show rollingMeanGo w rev (x :: rest) =
          (if w ≤ (x :: rev).length
            then some (((x :: rev).take w).sum / (w : Rat)) else none)
          :: rollingMeanGo w (x :: rev) rest from rfl,
        List.getElem?_cons_zero]
      have harr : ((x :: rest).take (0 + 1)).reverse ++ rev = x :: rev := by
        simp
      rw [harr, show (0 : Nat) + 1 + rev.length = (x :: rev).length by
        simp [Nat.add_comm]]
    | succ n =>
      have hn : n < rest.length := by simpa using h
      rw [show rollingMeanGo w rev (x :: rest) =
          (if w ≤ (x :: rev).length
            then some (((x :: rev).take w).sum / (w : Rat)) else none)
          :: rollingMeanGo w (x :: rev) rest from rfl,
        List.getElem?_cons_succ, ih (x :: rev) n hn]
      have hl : n + 1 + (x :: rev).length = n + 1 + 1 + rev.length := by
        simp [List.length_cons]
        omega
      have harr : (rest.take (n + 1)).reverse ++ (x :: rev) =
          ((x :: rest).take (n + 1 + 1)).reverse ++ rev := by
        simp [List.take_succ_cons, List.reverse_cons, List.append_assoc]
      rw [hl, harr]

theorem rollingMean_get (w : Nat) (xs : List Rat) (i : Nat)
    (hi : i < xs.length) :
    (rollingMean w xs)[i]? =
      some (if w ≤ i + 1
        then some (((xs.take (i + 1)).reverse.take w).sum / (w : Rat))
        else none) := by
  simpa using rollingMeanGo_get w xs [] i hi

theorem rollingMean_window (w : Nat) (xs : List Rat) (i : Nat)
    (hi : i < xs.length) :
    (w ≤ i + 1 →
      (rollingMean w xs)[i]? =
        some (some ((windowSlice w i xs).sum / (w : Rat))) ∧
      (windowSlice w i xs).length = w) ∧
    (i + 1 < w → (rollingMean w xs)[i]? = some none) := by
  have hget := rollingMean_get w xs i hi
  constructor
  · intro hw
    have hlenTake : (xs.take (i + 1)).length = i + 1 := by
      rw [List.length_take]
      omega
    have hsum : ((xs.take (i + 1)).reverse.take w).sum =
        (windowSlice w i xs).sum := by
      rw [List.take_reverse, List.sum_reverse, hlenTake]
      rfl
    refine ⟨?_, ?_⟩
    · rw [hget, if_pos hw, hsum]
    · simp only [windowSlice, List.length_drop, hlenTake]
      omega
  · intro hw
    rw [hget, if_neg (by omega)]

/-- Claim C5: the MA50/MA200 columns are the 50- and 200-day rolling means
of the closing price: wherever at least `w` closes are available the column
holds the arithmetic mean of `Close[i-w+1..i]` (a window of exactly `w`
values), and earlier entries are undefined (`None`); the columns built by
`ChartBuilder._prepare_data` coincide with those computed in
`format_price_data_for_llm`. -/
theorem movingAverage_is_rolling_mean (rows : List PriceRow) (t : String)
    (i : Nat) (hi : i < rows.length) :
    (50 ≤ i + 1 →
      (ChartBuilder.init rows t).ma50[i]? =
        some (some ((windowSlice 50 i
          (rows.map (fun r => r.close))).sum / (50 : Rat))) ∧
      (windowSlice 50 i (rows.map (fun r => r.close))).length = 50) ∧
    (i + 1 < 50 → (ChartBuilder.init rows t).ma50[i]? = some none) ∧
    (200 ≤ i + 1 →
      (ChartBuilder.init rows t).ma200[i]? =
        some (some ((windowSlice 200 i
          (rows.map (fun r => r.close))).sum / (200 : Rat))) ∧
      (windowSlice 200 i (rows.map (fun r => r.close))).length = 200) ∧
    (i + 1 < 200 → (ChartBuilder.init rows t).ma200[i]? = some none) ∧
    (ChartBuilder.init rows t).ma50 = priceDataMA 50 rows ∧
    (ChartBuilder.init rows t).ma200 = priceDataMA 200 rows := by
  have hb : rows.isEmpty = false := by
    cases rows with
    | nil => simp at hi
    | cons a l => rfl
  have hma50 : (ChartBuilder.init rows t).ma50 =
      rollingMean 50 (rows.map (fun r => r.close)) := by
    simp [ChartBuilder.init, prepareData, hb]
  have hma200 : (ChartBuilder.init rows t).ma200 =
      rollingMean 200 (rows.map (fun r => r.close)) := by
    simp [ChartBuilder.init, prepareData, hb]
  have hlen : i < (rows.map (fun r => r.close)).length := by
    simpa using hi
  have h50 := rollingMean_window 50 (rows.map (fun r => r.close)) i hlen
  have h200 := rollingMean_window 200 (rows.map (fun r => r.close)) i hlen
  rw [hma50, hma200]
  exact ⟨h50.1, h50.2, h200.1, h200.2, rfl, rfl⟩

/-- Witness for C5 at 50 constant rows, index 49. -/
theorem movingAverage_is_rolling_mean_witness :
    (ChartBuilder.init (List.replicate 50 sampleRow) "aapl").ma50[49]? =
      some (some ((windowSlice 50 49
        ((List.replicate 50 sampleRow).map (fun r => r.close))).sum /
        (50 : Rat))) := by
  exact ((movingAverage_is_rolling_mean (List.replicate 50 sampleRow)
    "aapl" 49 (by decide)).1 (by decide)).1

end StockAnalyzer
